import Mathlib

/-!
Verification of the data-normalization and filtering pipeline of
`src/algal_dashboard_community.py` (a Streamlit dashboard for harmful
algal bloom monitoring).  The pandas code is shallowly embedded: each
DataFrame becomes a list of records, each column a record field, and the
pandas operations used by the pipeline (merge, melt, filter masks,
pivot_table with mean) become executable list functions.  Dates are
embedded as integers in `yyyymmdd` form (only their order and equality
matter to the pipeline); numeric cells are `Option Rat` (`none` = NaN);
string cells are `String`.  A file that may be absent is `Option` of its
parsed contents (`none` = the file does not exist on disk).
-/

namespace Algal

/-- Calendar dates, encoded as integers in `yyyymmdd` form; the pipeline
only ever compares dates, and the encoding is order-preserving. -/
abbrev Date := Int

/-- The non-breaking space character U+00A0, replaced by the normalizer
at source line 32. -/
def nbsp : Char := Char.ofNat 160

/-- Whitespace as recognized by the Python regex `\s` on the data that
occurs here: space, tab, LF, VT, FF, CR, and the non-breaking space
(Python `re` is Unicode by default, so `\s` matches U+00A0). -/
def isWs (c : Char) : Bool :=
  c = ' ' || c = Char.ofNat 9 || c = Char.ofNat 10 || c = Char.ofNat 11 ||
  c = Char.ofNat 12 || c = Char.ofNat 13 || c = nbsp

/-- Leading and trailing whitespace removal, the embedding of
`.str.strip()` at source line 30. -/
def stripChars (l : List Char) : List Char :=
  ((l.dropWhile isWs).reverse.dropWhile isWs).reverse

/-- Collapse every run of whitespace to a single space, the embedding of
`.str.replace(r'\s+', ' ', regex=True)` at source line 31.  The Boolean
argument records whether the previous character was whitespace. -/
def collapseWs : Bool → List Char → List Char
  | _, [] => []
  | prev, c :: cs =>
    if isWs c then
      if prev then collapseWs true cs else ' ' :: collapseWs true cs
    else c :: collapseWs false cs

/-- Normalization of `Result_Name` in `load_data` (source lines 26-34):
strip, collapse whitespace runs, then replace non-breaking spaces with
ordinary spaces (the last step is applied as written at line 32, although
the collapse step has already consumed any U+00A0). -/
def normName (s : String) : String :=
  String.mk ((collapseWs false (stripChars s.data)).map
    (fun c => if c = nbsp then ' ' else c))

/-- One row of the primary (government) feed as `load_data` sees it after
the per-cell coercions: `Date_Sample_Collected` is already passed through
`pd.to_datetime(..., errors='coerce')` (line 23), so an unparseable date
is `none` (NaT); `Result_Value_Numeric` is `none` when the cell is NaN;
`units` is the raw `Units` cell (`none` when absent). -/
structure PrimaryRow where
  site : String
  dateRaw : Option Date
  name : String
  value : Option Rat
  units : Option String
deriving Repr, DecidableEq

/-- One row of `site_coordinates.csv` after the `pd.to_numeric(...,
errors='coerce')` coercions at source lines 42-43: a non-numeric latitude
or longitude cell is `none` (NaN). -/
structure CoordRow where
  site : String
  lat : Option Rat
  long : Option Rat
deriving Repr, DecidableEq

/-- One record of the unified observation schema: a row of the merged
primary frame or of the melted community frame.  Field names follow the
DataFrame columns: `Site_Description`, `Date_Sample_Collected`,
`Result_Name`, `Result_Value_Numeric`, `Units`, `Latitude`,
`Longitude`. -/
structure Obs where
  site : String
  date : Option Date
  name : String
  value : Option Rat
  units : Option String
  lat : Option Rat
  long : Option Rat
deriving Repr, DecidableEq

/-- The coordinate-registry rows whose `Site_Description` equals the
given (raw, un-normalized) site string. -/
def coordMatches (cf : List CoordRow) (s : String) : List CoordRow :=
  cf.filter (fun c => c.site = s)

/-- Embedding of `df.merge(coords_df, on="Site_Description", how="left")`
at source line 41: every left row is paired with every registry row whose
site matches it exactly; a left row with no match is kept once with null
coordinates. -/
def joinCoords (rows : List PrimaryRow) (cf : List CoordRow) : List Obs :=
  rows.flatMap (fun r =>
    match coordMatches cf r.site with
    | [] => [{ site := r.site, date := r.dateRaw, name := r.name,
               value := r.value, units := r.units, lat := none, long := none }]
    | ms => ms.map (fun c => { site := r.site, date := r.dateRaw, name := r.name,
                               value := r.value, units := r.units,
                               lat := c.lat, long := c.long }))

/-- Shallow embedding of `load_data` (source lines 14-44).  `mainFile` is
`none` when the main data file does not exist, `coordsFile` is `none`
when `site_coordinates.csv` does not exist.  Branches:
* coordinates file missing (lines 36-38): `st.error` followed by
  `st.stop()` - the run halts, embedded as `Except.error`, and this
  happens whatever the state of the main file, since the check precedes
  the merge;
* main file missing (lines 15-17): the code builds `pd.DataFrame()`, a
  frame with NO columns, and then line 41 merges it
  `on="Site_Description"` - pandas raises `KeyError` because the key
  column is absent from the left frame, so the call terminates with an
  uncaught exception, embedded as `Except.error`;
* both present: `Result_Name` is normalized (lines 26-34) and the frame
  is left-joined with the registry (line 41). -/
def load_data (mainFile : Option (List PrimaryRow))
    (coordsFile : Option (List CoordRow)) : Except String (List Obs) :=
  match coordsFile with
  | none => Except.error "stop: coordinates file not found"
  | some cf =>
    match mainFile with
    | none => Except.error "KeyError: Site_Description"
    | some rows =>
      Except.ok (joinCoords (rows.map (fun r => { r with name := normName r.name })) cf)

/-- One row of the community spreadsheet, already projected onto the id
columns (`Location`, `Latitude`, `Longitude`, `Date`) and the species
column span; `values` lists the cells of the species columns in column
order (`none` = NaN), and `date` is the `Date` cell after the coercion at
source lines 65-66. -/
structure CommunityRow where
  location : String
  lat : Option Rat
  long : Option Rat
  date : Option Date
  values : List (Option Rat)
deriving Repr, DecidableEq

/-- The community spreadsheet: `speciesCols` is
`df.columns[date_idx + 1 : total_idx + 1]` (source lines 69-71), the
contiguous span of column names strictly after `Date` up to and
including the end anchor `Total plankton`. -/
structure CommunityTable where
  speciesCols : List String
  rows : List CommunityRow
deriving Repr, DecidableEq

/-- One melted record (source lines 74-98): column index `i` with name
`c`, sample row `r`.  The value is multiplied by 1000 (line 88), the unit
stamped `cells/L` (line 91), and the provenance marker ` *` appended to
the species name (line 94); site, date, and coordinates are inherited
from the sample row (lines 74-82). -/
def mkMelted (i : Nat) (c : String) (r : CommunityRow) : Obs :=
  { site := r.location, date := r.date, name := c ++ " *",
    value := (r.values.getD i none).map (fun v => v * 1000),
    units := some "cells/L", lat := r.lat, long := r.long }

/-- Embedding of `pd.melt` over the species span (source lines 74-78):
pandas emits the blocks in `value_vars` order, all sample rows for the
first species column, then all rows for the second, and so on.  `i` is
the index of the first remaining column within the span. -/
def meltSpan (rows : List CommunityRow) : List String → Nat → List Obs
  | [], _ => []
  | c :: cs, i => rows.map (mkMelted i c) ++ meltSpan rows cs (i + 1)

/-- Shallow embedding of `load_community` (source lines 47-107): a
missing file yields the empty frame (lines 48-50, and nothing further
touches it, so the result really is empty); otherwise the species span
is melted to long format with the per-record transformations of
`mkMelted`. -/
def load_community (file : Option CommunityTable) : List Obs :=
  match file with
  | none => []
  | some t => meltSpan t.rows t.speciesCols 0

/-- Embedding of `pd.concat([df, community_df])` at source line 289: the
Unified Observation View is the plain concatenation of the two
normalized frames. -/
def unified_view (df comm : List Obs) : List Obs := df ++ comm

/-- Embedding of `.between(start_date, end_date)` on the date column
(source lines 344 and 353): inclusive at both ends, and false on a null
(NaT) date, exactly as a NaT comparison is false in pandas. -/
def dateBetween (d0 d1 : Date) (d? : Option Date) : Bool :=
  match d? with
  | some d => decide (d0 ≤ d) && decide (d ≤ d1)
  | none => false

/-- The filter mask of source lines 342-346 (and identically 351-355):
species membership, inclusive date range, and a non-null value. -/
def obsPred (sp : List String) (d0 d1 : Date) (r : Obs) : Bool :=
  sp.contains r.name && dateBetween d0 d1 r.date && r.value.isSome

/-- Embedding of `df[mask]` at source lines 347 and 356. -/
def filterObs (obs : List Obs) (sp : List String) (d0 d1 : Date) : List Obs :=
  obs.filter (obsPred sp d0 d1)

/-- The record count of source line 359:
`len(sub_df) + len(comm_sub_df)`, where the community subset is the
empty frame when community data is excluded (line 349). -/
def filtered_records (df comm : List Obs) (ic : Bool) (sp : List String)
    (d0 d1 : Date) : Nat :=
  (filterObs df sp d0 d1).length +
    (if ic then (filterObs comm sp d0 d1).length else 0)

/-- The records that enter the trends pivot table: source lines 486-489
keep the rows with a non-null value, and the groupby underlying
`pivot_table` drops rows whose date index is NaT.  Each surviving row is
projected to `(Date_Sample_Collected, Result_Name,
Result_Value_Numeric)`. -/
def plotPoints (obs : List Obs) : List (Date × String × Rat) :=
  obs.filterMap (fun o =>
    match o.date, o.value with
    | some d, some v => some (d, o.name, v)
    | _, _ => none)

/-- The distinct `(date, species)` group keys of the pivot table at
source lines 499-504. -/
def aggKeys (obs : List Obs) : List (Date × String) :=
  ((plotPoints obs).map (fun p => (p.1, p.2.1))).dedup

/-- The values falling into one `(date, species)` group. -/
def groupVals (obs : List Obs) (k : Date × String) : List Rat :=
  ((plotPoints obs).filter (fun p => (p.1, p.2.1) = k)).map (fun p => p.2.2)

/-- The reduction of `aggfunc='mean'` at source line 503: the arithmetic
mean of the values in one group. -/
def groupMean (obs : List Obs) (k : Date × String) : Rat :=
  (groupVals obs k).sum / ((groupVals obs k).length : Rat)

/-- Embedding of the `pivot_table(index='Date_Sample_Collected',
columns='Result_Name', values='Result_Value_Numeric', aggfunc='mean')`
of source lines 499-504, in the long form it is melted back into at
lines 507-512: one `(date, species, mean)` point per occupied group. -/
def aggregate (obs : List Obs) : List (Date × String × Rat) :=
  (aggKeys obs).map (fun k => (k.1, k.2, groupMean obs k))

/-- Python substring containment (`kw in s`), used for the `"Karenia" in
s` tests at source lines 309 and 468. -/
def containsKw (kw s : String) : Bool :=
  s.data.tails.any (fun t => kw.data.isPrefixOf t)

/-- The `karenia_defaults` list of source line 309: the available species
whose name contains the fixed keyword `Karenia`. -/
def karenia_defaults (all_sp : List String) : List String :=
  all_sp.filter (fun s => containsKw "Karenia" s)

/-- The sidebar default-species computation of source lines 303-317:
previous selections are intersected with the current vocabulary (line
306); when community data is included and `Karenia spp subcount *` is
available it is forced into the surviving selection (lines 310-315); if
the surviving selection is empty the default is the `Karenia` keyword
subset (line 317) - with no further fallback. -/
def default_species (prev all_sp : List String) (ic : Bool) : List String :=
  let fp0 := prev.filter (fun s => all_sp.contains s)
  let fp :=
    if ic && all_sp.contains "Karenia spp subcount *" then
      if fp0.contains "Karenia spp subcount *" then fp0
      else if fp0.isEmpty then ["Karenia spp subcount *"]
      else fp0 ++ ["Karenia spp subcount *"]
    else fp0
  if fp.isEmpty then karenia_defaults all_sp else fp

/-- The trends default of source line 468: the `Karenia` keyword subset,
or - when that is empty, by the Python `or` - the first THREE available
entries (`all_species_trends[:3]`). -/
def default_trend_species (all_sp : List String) : List String :=
  let k := karenia_defaults all_sp
  if k.isEmpty then all_sp.take 3 else k

/-- The fixed fallback lower bound `pd.to_datetime('2020-01-01')` of
source lines 293 and 299, in the `yyyymmdd` encoding. -/
def fallbackMin : Date := 20200101

/-- The fixed fallback upper bound `pd.to_datetime('2025-12-31')` of
source lines 293 and 299. -/
def fallbackMax : Date := 20251231

/-- The date-range bounds offered to the filter controls (source lines
288-299): min and max of `Date_Sample_Collected` over the combined frame
(community included or not), or the fixed 2020-01-01 / 2025-12-31
interval when that frame is empty.  `min()`/`max()` skip NaT, so the
non-empty branch returns `none` only when every date is null. -/
def date_bounds (df comm : List Obs) (ic : Bool) : Option Date × Option Date :=
  let combined := if ic then df ++ comm else df
  if combined.isEmpty then (some fallbackMin, some fallbackMax)
  else ((combined.filterMap (fun o => o.date)).min?,
        (combined.filterMap (fun o => o.date)).max?)

/-- True exactly when the string ends with the two-character provenance
marker ` *` appended at source line 94. -/
def endsWithStar (s : String) : Bool :=
  s.data.reverse.take 2 = ['*', ' ']

/-! Concrete records used to exercise the pipeline on small inputs. -/

/-- Primary row whose `Units` cell reads `cells/mL`. -/
def pRow1 : PrimaryRow :=
  { site := "SiteA", dateRaw := some 20240101, name := "Karenia mikimotoi",
    value := some 200000, units := some "cells/mL" }

/-- The record `load_data` produces from `pRow1` with an empty registry. -/
def obs1cex : Obs :=
  { site := "SiteA", date := some 20240101, name := "Karenia mikimotoi",
    value := some 200000, units := some "cells/mL", lat := none, long := none }

/-- One-column community table. -/
def commT1 : CommunityTable :=
  { speciesCols := ["SpeciesX"],
    rows := [{ location := "B", lat := none, long := none, date := some 20240201,
               values := [none] }] }

/-- The record `load_community` produces from `commT1`. -/
def obs1w : Obs :=
  { site := "B", date := some 20240201, name := "SpeciesX *", value := none,
    units := some "cells/L", lat := none, long := none }

/-- Primary row whose site contains a double space. -/
def pRow3 : PrimaryRow :=
  { site := "A  B", dateRaw := some 20240101, name := "Karenia mikimotoi",
    value := some 1, units := none }

/-- Registry row whose site is the single-space variant of `pRow3.site`. -/
def cRow3 : CoordRow := { site := "A B", lat := some (-35), long := some 139 }

/-- The record `load_data` produces from `pRow3` and `cRow3`: no join
match, hence null coordinates. -/
def obs3cex : Obs :=
  { site := "A  B", date := some 20240101, name := "Karenia mikimotoi",
    value := some 1, units := none, lat := none, long := none }

/-- Primary row with a doubled space inside its species name. -/
def pRow3w : PrimaryRow :=
  { site := "X", dateRaw := some 1, name := "Karenia  mikimotoi", value := none,
    units := none }

/-- Registry row for a different site. -/
def cRow3w : CoordRow := { site := "Y", lat := some 1, long := some 2 }

/-- The record `load_data` produces from `pRow3w` and `cRow3w`. -/
def obs3w : Obs :=
  { site := "X", date := some 1, name := "Karenia mikimotoi", value := none,
    units := none, lat := none, long := none }

/-- Two-species community table modelled on the spec scenario (a
`SpeciesX` column and the `Total plankton` end anchor). -/
def commT4 : CommunityTable :=
  { speciesCols := ["SpeciesX", "Total plankton"],
    rows := [{ location := "B", lat := none, long := none, date := some 20240201,
               values := [none, some 5] }] }

/-- The first melted record of `commT4`. -/
def obs4w : Obs :=
  { site := "B", date := some 20240201, name := "SpeciesX *", value := none,
    units := some "cells/L", lat := none, long := none }

/-- Primary row whose `Result_Name` already ends in the marker ` *`. -/
def pRow5 : PrimaryRow :=
  { site := "A", dateRaw := some 1, name := "Karenia *", value := none, units := none }

/-- The record `load_data` produces from `pRow5` with an empty registry. -/
def obs5p : Obs :=
  { site := "A", date := some 1, name := "Karenia *", value := none, units := none,
    lat := none, long := none }

/-- Community table whose single species column is named `Karenia`. -/
def commT5 : CommunityTable :=
  { speciesCols := ["Karenia"],
    rows := [{ location := "B", lat := none, long := none, date := some 2,
               values := [none] }] }

/-- The record `load_community` produces from `commT5`; its name
collides with `obs5p.name`. -/
def obs5c : Obs :=
  { site := "B", date := some 2, name := "Karenia *", value := none,
    units := some "cells/L", lat := none, long := none }

/-- Primary row with an ordinary species name (no trailing marker). -/
def pRow5w : PrimaryRow :=
  { site := "A", dateRaw := some 1, name := "Karenia mikimotoi", value := none,
    units := none }

/-- The record `load_data` produces from `pRow5w` with an empty registry. -/
def obs5pw : Obs :=
  { site := "A", date := some 1, name := "Karenia mikimotoi", value := none,
    units := none, lat := none, long := none }

/-- An observation satisfying the filter predicate of the scenario in
spec section 8. -/
def obs6 : Obs :=
  { site := "A", date := some 20240101, name := "Karenia mikimotoi",
    value := some 200000, units := some "cells/L", lat := some (-35), long := some 139 }

/-- Two sites reporting the same species on the same date with values
100 and 300 (the cross-site averaging scenario of spec section 8). -/
def exObs7 : List Obs :=
  [{ site := "A", date := some 20240301, name := "Pseudo-nitzschia", value := some 100,
     units := some "cells/L", lat := none, long := none },
   { site := "B", date := some 20240301, name := "Pseudo-nitzschia", value := some 300,
     units := some "cells/L", lat := none, long := none }]

/-! Helper lemmas about the embedded operations. -/

theorem length_meltSpan (rows : List CommunityRow) (cols : List String) (i : Nat) :
    (meltSpan rows cols i).length = cols.length * rows.length := by
  induction cols generalizing i with
  | nil => simp [meltSpan]
  | cons c cs ih => simp [meltSpan, ih, Nat.succ_mul, Nat.add_comm]

theorem mem_meltSpan (rows : List CommunityRow) (cols : List String) (i : Nat)
    (o : Obs) (h : o ∈ meltSpan rows cols i) :
    ∃ j r, j < cols.length ∧ r ∈ rows ∧ o = mkMelted (i + j) (cols.getD j "") r := by
  induction cols generalizing i with
  | nil => simp [meltSpan] at h
  | cons c cs ih =>
    rw [meltSpan] at h
    rcases List.mem_append.1 h with h1 | h2
    · rcases List.mem_map.1 h1 with ⟨r, hr, rfl⟩
      exact ⟨0, r, Nat.succ_pos _, hr, by simp⟩
    · rcases ih (i + 1) h2 with ⟨j, r, hj, hr, rfl⟩
      refine ⟨j + 1, r, by simp only [List.length_cons]; omega, hr, ?_⟩
      have e : i + 1 + j = i + (j + 1) := by omega
      rw [show (c :: cs).getD (j + 1) "" = cs.getD j "" from rfl, e]

theorem meltSpan_units (rows : List CommunityRow) (cols : List String) (i : Nat)
    (o : Obs) (h : o ∈ meltSpan rows cols i) : o.units = some "cells/L" := by
  rcases mem_meltSpan rows cols i o h with ⟨j, r, _, _, rfl⟩
  rfl

theorem mem_joinCoords (rows : List PrimaryRow) (cf : List CoordRow) (o : Obs)
    (h : o ∈ joinCoords rows cf) :
    ∃ r ∈ rows, o.site = r.site ∧ o.date = r.dateRaw ∧ o.name = r.name ∧
      o.value = r.value ∧ o.units = r.units := by
  rcases List.mem_flatMap.1 h with ⟨r, hr, ho⟩
  refine ⟨r, hr, ?_⟩
  cases hm : coordMatches cf r.site with
  | nil =>
    rw [hm] at ho
    rcases List.mem_singleton.1 ho with rfl
    exact ⟨rfl, rfl, rfl, rfl, rfl⟩
  | cons c ms =>
    rw [hm] at ho
    rcases List.mem_map.1 ho with ⟨c2, _, rfl⟩
    exact ⟨rfl, rfl, rfl, rfl, rfl⟩

theorem joinCoords_null (rows : List PrimaryRow) (cf : List CoordRow) (o : Obs)
    (h : o ∈ joinCoords rows cf) (hnone : ∀ c ∈ cf, c.site ≠ o.site) :
    o.lat = none ∧ o.long = none := by
  rcases List.mem_flatMap.1 h with ⟨r, hr, ho⟩
  cases hm : coordMatches cf r.site with
  | nil =>
    rw [hm] at ho
    rcases List.mem_singleton.1 ho with rfl
    exact ⟨rfl, rfl⟩
  | cons c ms =>
    rw [hm] at ho
    rcases List.mem_map.1 ho with ⟨c2, hc2, rfl⟩
    have hc2m : c2 ∈ coordMatches cf r.site := by rw [hm]; exact hc2
    have := List.mem_filter.1 hc2m
    exact absurd (of_decide_eq_true this.2) (hnone c2 this.1)

theorem endsWithStar_append (c : String) : endsWithStar (c ++ " *") = true := by
  simp [endsWithStar, String.data_append, List.reverse_append]

theorem filter_eq_singleton_of_nodup {α : Type} [DecidableEq α] (l : List α)
    (hl : l.Nodup) (a : α) (ha : a ∈ l) : l.filter (fun x => x = a) = [a] := by
  induction l with
  | nil => cases ha
  | cons b bs ih =>
    rw [List.nodup_cons] at hl
    rcases List.mem_cons.1 ha with heq | hmem
    · subst heq
      have hnil : bs.filter (fun x => x = a) = [] := by
        rw [List.filter_eq_nil_iff]
        intro x hx
        simp only [decide_eq_true_eq]
        rintro rfl
        exact hl.1 hx
      simp [List.filter_cons, hnil]

    · have hne : b ≠ a := fun h => hl.1 (h ▸ hmem)
      simp [List.filter_cons, hne, ih hl.2 hmem]

/-! Settled claims. -/

/-- C1, counterexample: the claim says every record of the Unified
Observation View has `unit = "cells/L"` regardless of source, but
`load_data` leaves the `Units` column of the primary feed untouched, so
a primary row whose `Units` cell reads `cells/mL` reaches the unified
view with that unit. -/
theorem C1_cex :
    load_data (some [pRow1]) (some []) = Except.ok [obs1cex] ∧
    obs1cex ∈ unified_view [obs1cex] (load_community none) ∧
    obs1cex.units ≠ some "cells/L" := by
  refine ⟨rfl, ?_, by decide⟩
  exact List.mem_append.2 (Or.inl (List.mem_singleton.2 rfl))

/-- C1, amended: every community-normalized record has unit `cells/L`
(stamped at source line 91), while every primary-normalized record
carries the `Units` value of its source row unchanged (`load_data`
performs no unit normalization). -/
theorem C1_amended_thm (mf : List PrimaryRow) (cf : List CoordRow) (res : List Obs)
    (h : load_data (some mf) (some cf) = Except.ok res) (t : CommunityTable) :
    (∀ o ∈ load_community (some t), o.units = some "cells/L") ∧
    (∀ o ∈ res, ∃ r ∈ mf, o.units = r.units) := by
  constructor
  · intro o ho
    exact meltSpan_units _ _ _ _ ho
  · intro o ho
    have hres : joinCoords (mf.map fun r => { r with name := normName r.name }) cf = res := by
      simpa [load_data] using h
    rw [← hres] at ho
    rcases mem_joinCoords _ _ _ ho with ⟨r, hr, _, _, _, _, hu⟩
    rcases List.mem_map.1 hr with ⟨r0, hr0, rfl⟩
    exact ⟨r0, hr0, hu⟩

/-- C1, witness: a concrete community record carries `cells/L` while a
concrete primary record keeps its source unit (`cells/mL`). -/
theorem C1_witness : obs1w.units = some "cells/L" ∧ obs1cex.units = pRow1.units := by
  have h := C1_amended_thm [pRow1] [] [obs1cex] rfl commT1
  refine ⟨h.1 obs1w (by decide), ?_⟩
  obtain ⟨r, hr, hu⟩ := h.2 obs1cex (List.mem_singleton.2 rfl)
  have heq := List.mem_singleton.1 hr
  subst heq
  exact hu

/-- C2: on a missing main-feed file the code intends to continue with an
empty dataset (the warning at source line 16 says so), but it builds
`pd.DataFrame()` - a frame with no columns - and line 41 then merges it
`on="Site_Description"`, which raises `KeyError`; `load_data` therefore
terminates with an uncaught exception instead of returning an empty
dataset, whatever the coordinate registry contains. -/
theorem C2_eval (cf : List CoordRow) :
    load_data none (some cf) = Except.error "KeyError: Site_Description" := rfl

/-- C3, counterexample: `"A  B"` and `"A B"` differ only in collapsible
whitespace (their normalized forms coincide), yet the coordinate join
treats them as distinct: the registry entry for `"A B"` is not joined to
the primary row for `"A  B"`, which ends with null coordinates. -/
theorem C3_cex :
    normName "A  B" = normName "A B" ∧ "A  B" ≠ "A B" ∧
    load_data (some [pRow3]) (some [cRow3]) = Except.ok [obs3cex] ∧
    obs3cex.lat = none ∧ obs3cex.long = none := by
  exact ⟨by decide, by decide, rfl, rfl, rfl⟩

/-- C3, amended: the whitespace normalization of source lines 26-34 is
applied to the species field `Result_Name`, not to `site_id`: every
record of `load_data` carries the normalized species name but the RAW
`Site_Description` of its source row, and the coordinate join matches on
that raw string, yielding null coordinates whenever no registry row has
the exact same site string. -/
theorem C3_amended_thm (mf : List PrimaryRow) (cf : List CoordRow) (res : List Obs)
    (h : load_data (some mf) (some cf) = Except.ok res) :
    (∀ o ∈ res, ∃ r ∈ mf, o.name = normName r.name ∧ o.site = r.site) ∧
    (∀ o ∈ res, (∀ c ∈ cf, c.site ≠ o.site) → o.lat = none ∧ o.long = none) := by
  have hres : joinCoords (mf.map fun r => { r with name := normName r.name }) cf = res := by
    simpa [load_data] using h
  constructor
  · intro o ho
    rw [← hres] at ho
    rcases mem_joinCoords _ _ _ ho with ⟨r, hr, hsite, _, hname, _, _⟩
    rcases List.mem_map.1 hr with ⟨r0, hr0, rfl⟩
    exact ⟨r0, hr0, hname, hsite⟩
  · intro o ho hnone
    rw [← hres] at ho
    exact joinCoords_null _ _ _ ho hnone

/-- C3, witness: the species name of a concrete loaded record is the
normalized source name, its site is the raw source site, and the
unmatched site yields null coordinates. -/
theorem C3_witness :
    obs3w.name = normName pRow3w.name ∧ obs3w.site = pRow3w.site ∧
    obs3w.lat = none ∧ obs3w.long = none := by
  have h := C3_amended_thm [pRow3w] [cRow3w] [obs3w] rfl
  obtain ⟨r, hr, hn, hs⟩ := h.1 obs3w (List.mem_singleton.2 rfl)
  have heq := List.mem_singleton.1 hr
  subst heq
  have h2 := h.2 obs3w (List.mem_singleton.2 rfl) (by decide)
  exact ⟨hn, hs, h2.1, h2.2⟩

/-- C4: melting a community table whose species span holds N columns
produces exactly N long rows per sample row, each inheriting the
sample's site, date, and coordinates, with the value multiplied by 1000
and the unit stamped `cells/L`. -/
theorem C4_reshape (t : CommunityTable) :
    (load_community (some t)).length = t.speciesCols.length * t.rows.length ∧
    ∀ o ∈ load_community (some t), ∃ i r,
      i < t.speciesCols.length ∧ r ∈ t.rows ∧
      o.site = r.location ∧ o.date = r.date ∧ o.lat = r.lat ∧ o.long = r.long ∧
      o.units = some "cells/L" ∧ o.name = t.speciesCols.getD i "" ++ " *" ∧
      o.value = (r.values.getD i none).map (fun v => v * 1000) := by
  constructor
  · exact length_meltSpan t.rows t.speciesCols 0
  · intro o ho
    rcases mem_meltSpan _ _ _ _ ho with ⟨j, r, hj, hr, rfl⟩
    refine ⟨j, r, hj, hr, rfl, rfl, rfl, rfl, rfl, ?_, ?_⟩ <;>
      simp [mkMelted]

/-- C4, witness: the spec scenario table (`SpeciesX` plus the
`Total plankton` anchor, one sample row) melts to 2 = 2 x 1 records; the
first record inherits the sample's site and date and carries
`cells/L`. -/
theorem C4_witness :
    (load_community (some commT4)).length = 2 * 1 ∧
    obs4w ∈ load_community (some commT4) ∧
    obs4w.site = "B" ∧ obs4w.date = some 20240201 ∧ obs4w.units = some "cells/L" := by
  have h := C4_reshape commT4
  obtain ⟨i, r, hi, hr, hsite, hdate, _, _, hunits, _, _⟩ := h.2 obs4w (by decide)
  have heq := List.mem_singleton.1 hr
  subst heq
  exact ⟨h.1, by decide, hsite, hdate, hunits⟩

/-- C5, counterexample: the claim quantifies over every pair of one
primary-normalized and one community-normalized record, but a primary
`Result_Name` that already ends in ` *` survives normalization
unchanged and collides with the marked community name built from the
same stem: both records below carry the species name `Karenia *`. -/
theorem C5_cex :
    load_data (some [pRow5]) (some []) = Except.ok [obs5p] ∧
    load_community (some commT5) = [obs5c] ∧
    obs5p.name = obs5c.name := ⟨rfl, rfl, rfl⟩

/-- C5, amended: every community-normalized species name ends with the
` *` marker, so it differs from every primary-normalized name that does
not itself end in ` *`; the code does not prevent a primary source name
ending in ` *` from colliding. -/
theorem C5_amended_thm (mf : List PrimaryRow) (cf : List CoordRow) (t : CommunityTable)
    (res : List Obs) (_hres : load_data (some mf) (some cf) = Except.ok res)
    (o1 : Obs) (_h1 : o1 ∈ res) (o2 : Obs) (h2 : o2 ∈ load_community (some t))
    (hs : endsWithStar o1.name = false) :
    endsWithStar o2.name = true ∧ o1.name ≠ o2.name := by
  have hstar : endsWithStar o2.name = true := by
    rcases mem_meltSpan _ _ _ _ h2 with ⟨j, r, hj, hr, rfl⟩
    simpa [mkMelted] using endsWithStar_append (t.speciesCols.getD j "")
  refine ⟨hstar, fun he => ?_⟩
  rw [he, hstar] at hs
  cases hs

/-- C5, witness: a concrete primary record named `Karenia mikimotoi`
differs from the concrete community record named `Karenia *`. -/
theorem C5_witness :
    endsWithStar obs5c.name = true ∧ obs5pw.name ≠ obs5c.name :=
  C5_amended_thm [pRow5w] [] commT5 [obs5pw] rfl obs5pw
    (List.mem_singleton.2 rfl) obs5c (by decide) (by decide)

/-- C6: the filter keeps exactly the records satisfying species
membership AND the inclusive date interval AND a non-null value; the
record count is the number of such records in the primary frame plus,
when community data is included, the number in the community frame. -/
theorem C6_filter (df comm : List Obs) (sp : List String) (d0 d1 : Date) (ic : Bool)
    (r : Obs) :
    (r ∈ filterObs df sp d0 d1 ↔
      r ∈ df ∧ sp.contains r.name = true ∧
      (∃ d, r.date = some d ∧ d0 ≤ d ∧ d ≤ d1) ∧ r.value.isSome = true) ∧
    filtered_records df comm ic sp d0 d1 =
      df.countP (obsPred sp d0 d1) +
        (if ic then comm.countP (obsPred sp d0 d1) else 0) := by
  constructor
  · rw [filterObs, List.mem_filter]
    constructor
    · rintro ⟨hmem, hp⟩
      rw [obsPred] at hp
      simp only [Bool.and_eq_true] at hp
      obtain ⟨⟨hc, hd⟩, hv⟩ := hp
      refine ⟨hmem, hc, ?_, hv⟩
      cases hdate : r.date with
      | none => rw [hdate] at hd; cases hd
      | some d =>
        rw [hdate] at hd
        rw [dateBetween, Bool.and_eq_true, decide_eq_true_eq, decide_eq_true_eq] at hd
        exact ⟨d, rfl, hd.1, hd.2⟩
    · rintro ⟨hmem, hc, ⟨d, hd, h0, h1⟩, hv⟩
      refine ⟨hmem, ?_⟩
      rw [obsPred]
      simp only [Bool.and_eq_true]
      exact ⟨⟨hc, by rw [hd, dateBetween]; simp [h0, h1]⟩, hv⟩
  · simp [filtered_records, filterObs, List.countP_eq_length_filter]

/-- C6, witness: the spec scenario record passes the filter and is
counted once. -/
theorem C6_witness :
    obs6 ∈ filterObs [obs6] ["Karenia mikimotoi"] 20240101 20240101 ∧
    filtered_records [obs6] [] true ["Karenia mikimotoi"] 20240101 20240101 = 1 := by
  have h := C6_filter [obs6] [] ["Karenia mikimotoi"] 20240101 20240101 true obs6
  refine ⟨?_, ?_⟩
  · exact h.1.mpr ⟨List.mem_singleton.2 rfl, by decide,
      ⟨20240101, rfl, by decide, by decide⟩, rfl⟩
  · rw [h.2]
    decide

/-- C7: the trend aggregation has exactly one output point per occupied
`(date, species)` group, and its value is the arithmetic mean of the
group; a singleton group's mean is that record's own value. -/
theorem C7_aggregate (obs : List Obs) (d : Date) (s : String)
    (h : (d, s) ∈ aggKeys obs) :
    (aggregate obs).filter (fun p => (p.1, p.2.1) = (d, s)) =
      [(d, s, groupMean obs (d, s))] ∧
    (d, s, groupMean obs (d, s)) ∈ aggregate obs ∧
    (∀ v : Rat, groupVals obs (d, s) = [v] → groupMean obs (d, s) = v) := by
  have hmain : (aggregate obs).filter (fun p => (p.1, p.2.1) = (d, s)) =
      [(d, s, groupMean obs (d, s))] := by
    rw [aggregate, List.filter_map]
    have hcomp : ((fun p : Date × String × Rat => decide ((p.1, p.2.1) = (d, s))) ∘
        (fun k : Date × String => (k.1, k.2, groupMean obs k))) =
        fun k : Date × String => decide (k = (d, s)) := by
      funext k
      rfl
    rw [hcomp]
    rw [filter_eq_singleton_of_nodup (aggKeys obs) (List.nodup_dedup _) (d, s) h]
    rfl
  refine ⟨hmain, ?_, ?_⟩
  · have hm : (d, s, groupMean obs (d, s)) ∈
        (aggregate obs).filter (fun p => (p.1, p.2.1) = (d, s)) := by
      rw [hmain]
      exact List.mem_singleton.2 rfl
    exact (List.mem_filter.1 hm).1
  · intro v hv
    rw [groupMean, hv]
    simp

/-- C7, witness: two sites reporting 100 and 300 for the same species on
the same date aggregate to the single point with value 200 (a cross-site
mean, not the sum 400). -/
theorem C7_witness :
    (aggregate exObs7).filter
        (fun p => (p.1, p.2.1) = ((20240301 : Int), "Pseudo-nitzschia")) =
      [((20240301 : Int), "Pseudo-nitzschia", (200 : Rat))] := by
  have h := (C7_aggregate exObs7 20240301 "Pseudo-nitzschia" (by decide)).1
  have hv : groupVals exObs7 (20240301, "Pseudo-nitzschia") = [100, 300] := by
    simp [groupVals, plotPoints, exObs7]
  have e : groupMean exObs7 (20240301, "Pseudo-nitzschia") = 200 := by
    rw [groupMean, hv]
    norm_num
  rw [e] at h
  exact h

/-- C8, counterexample: with no surviving previous selection and a
vocabulary containing no `Karenia` name, the sidebar default is EMPTY -
there is no fallback to the first available entry, so the effective
selection can be empty for a non-empty dataset. -/
theorem C8_cex :
    default_species [] ["Alexandrium catenella"] false = [] ∧
    (["Alexandrium catenella"] : List String) ≠ [] ∧
    default_species [] ["Alexandrium catenella"] false ≠ ["Alexandrium catenella"] :=
  ⟨by decide, by decide, by decide⟩

/-- C8, amended: when no previous selection survives the vocabulary
intersection (and the `Karenia spp subcount *` special case does not
apply), the sidebar default is exactly the `Karenia` keyword subset and
is empty when that subset is empty; only the trends selector falls back,
to the first THREE available entries, so the trends default is non-empty
for a non-empty vocabulary. -/
theorem C8_amended_thm (prev all_sp : List String) (ic : Bool)
    (h1 : prev.filter (fun s => all_sp.contains s) = [])
    (h2 : all_sp.contains "Karenia spp subcount *" = false) :
    default_species prev all_sp ic = karenia_defaults all_sp ∧
    (karenia_defaults all_sp = [] → default_species prev all_sp ic = []) ∧
    (all_sp ≠ [] → default_trend_species all_sp ≠ []) := by
  have hd : default_species prev all_sp ic = karenia_defaults all_sp := by
    simp only [default_species]
    rw [h2]
    simp only [Bool.and_false]
    rw [h1]
    simp
  refine ⟨hd, fun hk => by rw [hd, hk], fun hne hcontra => ?_⟩
  rw [default_trend_species] at hcontra
  by_cases hk : (karenia_defaults all_sp).isEmpty
  · rw [if_pos hk] at hcontra
    exact absurd hcontra (by simp [List.take_eq_nil_iff, hne])
  · rw [if_neg hk] at hcontra
    rw [hcontra] at hk
    exact hk rfl

/-- C8, witness: with a stale previous selection and a vocabulary
containing a `Karenia` name, the sidebar default is the `Karenia`
subset, and the trends default is non-empty. -/
theorem C8_witness :
    default_species ["Oldname"] ["Karenia mikimotoi", "Noctiluca scintillans"] true =
      karenia_defaults ["Karenia mikimotoi", "Noctiluca scintillans"] ∧
    default_trend_species ["Karenia mikimotoi", "Noctiluca scintillans"] ≠ [] := by
  have h := C8_amended_thm ["Oldname"] ["Karenia mikimotoi", "Noctiluca scintillans"] true
    (by decide) (by decide)
  exact ⟨h.1, h.2.2 (by decide)⟩

/-- C9: a missing coordinate registry is fatal (source lines 36-38 stop
the run) whatever the state of the main feed file - but it is NOT the
only fatal missing-file condition: a missing main feed with the registry
present also terminates with an uncaught `KeyError` at the merge of the
column-less empty frame (see C2), contradicting the exclusivity part of
the claim. -/
theorem C9_eval :
    (∀ mf : Option (List PrimaryRow),
      load_data mf none = Except.error "stop: coordinates file not found") ∧
    load_data none (some []) = Except.error "KeyError: Site_Description" :=
  ⟨fun mf => by cases mf <;> rfl, rfl⟩

/-- C10: whenever the frame backing the filter controls is empty (both
feeds empty, or community excluded and the primary feed empty), the
offered date bounds are the fixed interval 2020-01-01 / 2025-12-31. -/
theorem C10_bounds (df comm : List Obs) (ic : Bool)
    (h : (df = [] ∧ comm = []) ∨ (ic = false ∧ df = [])) :
    date_bounds df comm ic = (some fallbackMin, some fallbackMax) := by
  rcases h with ⟨rfl, rfl⟩ | ⟨hic, rfl⟩
  · cases ic <;> rfl
  · rw [hic]
    rfl

/-- C10, witness: both feeds empty with community included yields the
fixed bounds. -/
theorem C10_witness : date_bounds [] [] true = (some fallbackMin, some fallbackMax) :=
  C10_bounds [] [] true (Or.inl ⟨rfl, rfl⟩)

end Algal
